import Mathlib

set_option autoImplicit false

namespace MavlinkServer

/-!
Verification of the mavlink-server core against its source.

The development shallowly embeds the parts of the repository the properties
talk about:

* `src/src/lib/protocol.rs` — the `Protocol` frame wrapper and
  `read_all_messages` framing loop;
* `src/src/drivers/tcp/mod.rs`, `src/src/drivers/serial/mod.rs`,
  `src/src/drivers/fake.rs`, `src/src/drivers/tlog/writer.rs` — the
  per-driver send/receive loops, modelled as step functions on the events
  they react to;
* `src/src/stats/protocol.rs` and `src/src/stats/actor.rs` — the stats
  command protocol and the actor's command handlers.

Bytes are modelled as `Nat` values (byte buffers are `List Nat`); machine
arithmetic that can wrap is made explicit with `% 256` / `% 65536`.
Asynchronous effects (the clock, the result of a hub call, channel receive
results) are passed as explicit arguments.
-/

/-- `Protocol` (src/src/lib/protocol.rs lines 12-18): one raw MAVLink v2
frame tagged with the origin driver and an ingest timestamp. -/
structure Protocol where
  origin : String
  timestamp : Nat
  message : List Nat
  deriving DecidableEq, Repr

/-- `Protocol::new` (protocol.rs lines 21-27); the ingest clock
`chrono::Utc::now()` is the explicit argument `now`. -/
def Protocol.new (now : Nat) (origin : String) (message : List Nat) : Protocol :=
  { origin := origin, timestamp := now, message := message }

/-- `raw_bytes()` of the wrapped `MAVLinkV2MessageRaw`, reached through the
`Deref` impl (protocol.rs lines 96-102): the complete frame bytes. -/
def Protocol.raw_bytes (p : Protocol) : List Nat := p.message

/-- `mavlink::MAVLinkMessageRaw`: the raw-message payload of the external
codec's `ParserError::InvalidCRC`, which can carry a v1 or a v2 raw frame.
`read_all_messages` matches on exactly this distinction (protocol.rs
lines 69-73). -/
inductive MAVLinkMessageRaw
  | v1 (bytes : List Nat)
  | v2 (bytes : List Nat)
  deriving DecidableEq, Repr

/-- Result of one attempt of the external codec to read a v2 raw message,
as distinguished by the `match` in `read_all_messages` (protocol.rs
lines 56-78): success, `MessageReadError::Io`, `ParserError::InvalidCRC`
(with the raw message), or any other parse error. -/
inductive ParseResult
  | ok (frame : List Nat)
  | ioError
  | invalidCRC (crc : Nat) (calculated : Nat) (raw : MAVLinkMessageRaw)
  | otherParse
  deriving DecidableEq, Repr

/-- Modelled from the spec: one byte step of the CRC-16/MCRF4XX used by the
MAVLink v2 wire protocol (spec section 6, "Wire protocol"); the external
codec computes it, it is not code of this repository.  `u8`/`u16` wrap-around
is explicit via `% 256` / `% 65536`. -/
def crcAccumulate (b : Nat) (crc : Nat) : Nat :=
  let tmp := (Nat.xor b (crc % 256)) % 256
  let tmp2 := (Nat.xor tmp ((tmp * 16) % 256)) % 256
  (Nat.xor (Nat.xor (Nat.xor (crc / 256) (tmp2 * 256)) (tmp2 * 8)) (tmp2 / 16)) % 65536

/-- Modelled from the spec: CRC-16/MCRF4XX over `bytes` followed by the
message's CRC_EXTRA byte, initial value 0xFFFF (spec section 6). -/
def crcCalculate (bytes : List Nat) (extra : Nat) : Nat :=
  (bytes ++ [extra]).foldl (fun c b => crcAccumulate b c) 65535

/-- Modelled from the spec: the external codec's
`mavlink::read_v2_raw_message_async` over a peek reader (spec section 4.1
and section 6).  Missing from src/ (it lives in the external `mavlink`
crate).  Behaviour per the spec: scan forward to the v2 STX byte 0xFD
(skipped bytes are consumed); read the 10-byte header, the `len`-byte
payload, the 2-byte little-endian CRC and, when incompat-flag bit 0 is set,
the 13-byte signature; a short buffer is an I/O error that consumes only the
skipped bytes ("preserve unconsumed trailing bytes in the buffer"); a frame
whose stored CRC differs from the computed one is an `InvalidCRC` parse
error carrying the raw v2 frame, with the whole frame consumed ("drain from
the buffer exactly the number of bytes the reader consumed").  The second
component of the result is the number of bytes consumed. -/
def parseV2 (crcExtra : Nat → Nat) (buf : List Nat) : ParseResult × Nat :=
  let skip := (buf.takeWhile (fun b => b ≠ 253)).length
  match buf.dropWhile (fun b => b ≠ 253) with
  | _stx :: len :: inc :: cmp :: sq :: sys :: comp :: m0 :: m1 :: m2 :: tail =>
    let sigLen := if inc % 2 = 1 then 13 else 0
    if tail.length < len + 2 + sigLen then (.ioError, skip)
    else
      let msgid := m0 + 256 * m1 + 65536 * m2
      let body := tail.take (len + 2 + sigLen)
      let frame := 253 :: len :: inc :: cmp :: sq :: sys :: comp :: m0 :: m1 :: m2 :: body
      let given := (tail.drop len).getD 0 0 + 256 * (tail.drop len).getD 1 0
      let calcCrc := crcCalculate
        (len :: inc :: cmp :: sq :: sys :: comp :: m0 :: m1 :: m2 :: tail.take len)
        (crcExtra msgid)
      if given = calcCrc then (.ok frame, skip + (12 + len + sigLen))
      else (.invalidCRC given calcCrc (.v2 frame), skip + (12 + len + sigLen))
  | _ => (.ioError, skip)

/-- The three ways one iteration of the `loop` in `read_all_messages`
(protocol.rs lines 51-83) can end: `break Some(message)`, `break None`,
or `continue`. -/
inductive LoopDecision
  | breakSome (frame : List Nat)
  | breakNone
  | continueLoop
  deriving DecidableEq, Repr

/-- How the body of the `loop` in `read_all_messages` (protocol.rs
lines 51-83) reacts to one read attempt: `Ok` breaks with the message;
`Io` breaks with none; `InvalidCRC` under `discard_invalid_checksum = false`
breaks with the raw message if it is `V2` and `continue`s if it is `V1`
(the `let ... else continue` at lines 69-73); every other path breaks with
none. -/
def read_loop_step (discard_invalid_checksum : Bool) : ParseResult → LoopDecision
  | .ok frame => .breakSome frame
  | .ioError => .breakNone
  | .invalidCRC _ _ raw =>
    if discard_invalid_checksum then .breakNone
    else
      match raw with
      | .v2 frame => .breakSome frame
      | .v1 _ => .continueLoop
  | .otherParse => .breakNone

/-- The `loop` of `read_all_messages` (protocol.rs lines 51-83): repeatedly
attempt a read and act on it via `read_loop_step`; only the `continue`
branch iterates.  `fuel` bounds the iteration count (each `continue`
consumes a parsed frame, so `buf.length + 1` fuel always suffices);
the accumulator `consumed` tracks the reader position that
`buf.drain(..bytes_read)` will use.  Returns the message the loop broke
with, if any, and the total bytes consumed. -/
def read_messages_loop (discard : Bool) (crcExtra : Nat → Nat) :
    Nat → List Nat → Nat → Option (List Nat) × Nat
  | 0, _, consumed => (none, consumed)
  | fuel + 1, remaining, consumed =>
    let res := parseV2 crcExtra remaining
    match read_loop_step discard res.1 with
    | .breakSome frame => (some frame, consumed + res.2)
    | .breakNone => (none, consumed + res.2)
    | .continueLoop =>
      read_messages_loop discard crcExtra fuel (remaining.drop res.2) (consumed + res.2)

/-- Observable outcome of one `read_all_messages` call: the `Protocol`
values passed to `process_message`, in order, and the buffer contents after
`buf.drain(..bytes_read)` (protocol.rs lines 92-93). -/
structure ReadOutcome where
  delivered : List Protocol
  buffer : List Nat
  deriving DecidableEq, Repr

/-- `read_all_messages` (protocol.rs lines 38-94): run the loop, wrap a
broken-out message in `Protocol::new(origin, message)` and pass it to the
callback, then drain the consumed prefix from the buffer.  The async
callback is modelled by collecting the delivered `Protocol` values; `now`
stands for `chrono::Utc::now()`. -/
def read_all_messages (origin : String) (now : Nat) (buf : List Nat)
    (discard_invalid_checksum : Bool) (crcExtra : Nat → Nat) : ReadOutcome :=
  let r := read_messages_loop discard_invalid_checksum crcExtra (buf.length + 1) buf 0
  { delivered :=
      match r.1 with
      | some frame => [Protocol.new now origin frame]
      | none => []
    buffer := buf.drop r.2 }

/-- The fields of one MAVLink v2 frame (spec section 6): incompat/compat
flags, sequence, system and component ids, the three message-id bytes
(little-endian), the payload and the optional signature bytes. -/
structure V2FrameData where
  incompat : Nat
  compat : Nat
  seq : Nat
  sysid : Nat
  compid : Nat
  msgid0 : Nat
  msgid1 : Nat
  msgid2 : Nat
  payload : List Nat
  sig : List Nat
  deriving DecidableEq, Repr

/-- The 24-bit message id assembled from its three little-endian bytes. -/
def V2FrameData.msgid (f : V2FrameData) : Nat :=
  f.msgid0 + 256 * f.msgid1 + 65536 * f.msgid2

/-- Signature length: 13 bytes when incompat-flag bit 0 is set, else 0. -/
def V2FrameData.sigLen (f : V2FrameData) : Nat :=
  if f.incompat % 2 = 1 then 13 else 0

/-- The bytes the v2 CRC covers: everything from the length byte through
the payload (the STX byte is excluded). -/
def V2FrameData.crcData (f : V2FrameData) : List Nat :=
  f.payload.length :: f.incompat :: f.compat :: f.seq :: f.sysid :: f.compid ::
    f.msgid0 :: f.msgid1 :: f.msgid2 :: f.payload

/-- The CRC value that makes the frame well-formed. -/
def V2FrameData.goodCrc (crcExtra : Nat → Nat) (f : V2FrameData) : Nat :=
  crcCalculate f.crcData (crcExtra f.msgid)

/-- Serialise the frame with an arbitrary stored CRC value `crc`
(little-endian low byte first). -/
def V2FrameData.encode (f : V2FrameData) (crc : Nat) : List Nat :=
  253 :: (f.crcData ++ [crc % 256, crc / 256] ++ f.sig)

/-- Well-formedness of the frame fields: the payload fits the one-byte
length field and the signature is present exactly when incompat bit 0
demands it. -/
def V2FrameData.WF (f : V2FrameData) : Prop :=
  f.payload.length ≤ 255 ∧ f.sig.length = f.sigLen

/-! ## Driver send/receive loops -/

/-- `tokio::sync::broadcast::Receiver::recv` outcomes as the subscriber
loops match them: a message, `RecvError::Lagged(n)`, or
`RecvError::Closed`. -/
inductive RecvEvent
  | message (m : Protocol)
  | lagged (n : Nat)
  | closed
  deriving DecidableEq, Repr

/-- What one iteration of a hub-subscriber loop does with its receive
result. -/
inductive SendStep
  | wrote (bytes : List Nat)
  | wroteTlogRecord (timestamp : Nat) (bytes : List Nat)
  | skippedLoopback
  | warnContinue (n : Nat)
  | errorLogContinue
  | processed (m : Protocol)
  | exited
  deriving DecidableEq, Repr

/-- One iteration of `tcp_send_task` (src/src/drivers/tcp/mod.rs
lines 53-76): `Closed` breaks; `Lagged(count)` warns and `continue`s;
a message whose `origin` equals `remote_addr` is skipped (`continue`, the
loopback check at lines 66-68); otherwise its raw bytes are written to the
socket. -/
def tcp_send_step (remote_addr : String) : RecvEvent → SendStep
  | .closed => .exited
  | .lagged n => .warnContinue n
  | .message m =>
    if m.origin = remote_addr then .skippedLoopback else .wrote m.raw_bytes

/-- One iteration of `Serial::serial_send_task` (src/src/drivers/serial/mod.rs
lines 114-133).  On a message the `on_message_output` callbacks run first
(a failing callback is only logged — the `continue` at line 121 targets the
callback `for` loop), then the raw bytes are written: there is no origin
check in this task.  On a receive error — `Lagged` as well as `Closed` —
the task only logs (lines 129-131) and the loop continues. -/
def serial_send_step : RecvEvent → SendStep
  | .message m => .wrote m.raw_bytes
  | .lagged _ => .errorLogContinue
  | .closed => .errorLogContinue

/-- One iteration of `FakeSink::run` (src/src/drivers/fake.rs lines 50-66):
the loop is `while let Ok(message) = hub_receiver.recv().await`, so any
receive error — `Lagged` as well as `Closed` — ends the loop; a message is
run through the `on_message` callbacks and logged. -/
def fake_sink_step : RecvEvent → SendStep
  | .message m => .processed m
  | .lagged _ => .exited
  | .closed => .exited

/-- One iteration of `TlogWriter::handle_client`
(src/src/drivers/tlog/writer.rs lines 57-87): a message is written as an
8-byte big-endian timestamp followed by the raw frame bytes and flushed;
any receive error — `Lagged` as well as `Closed` — logs and `break`s
(lines 82-85).  `now` stands for `chrono::Utc::now()`. -/
def tlog_writer_step (now : Nat) : RecvEvent → SendStep
  | .message m => .wroteTlogRecord now m.raw_bytes
  | .lagged _ => .exited
  | .closed => .exited

/-- Events of the per-message input pipeline of a receive task. -/
inductive PipeEvent
  | ranCallback (result : Except String Unit)
  | published (m : Protocol)
  deriving Repr

/-- The callback `for` loop of the `read_all_messages` closure in
`Serial::serial_receive_task` (src/src/drivers/serial/mod.rs lines 79-84;
`FakeSource::run` has the identical shape at fake.rs lines 175-182): each
`on_message_input` callback is awaited in order; a failing callback is
logged with "Dropping message" and the `continue` moves to the next
callback of the same `for` loop. -/
def run_input_callbacks (callbacks : List (Protocol → Except String Unit))
    (m : Protocol) : List PipeEvent :=
  match callbacks with
  | [] => []
  | c :: rest =>
    match c m with
    | .ok u => .ranCallback (.ok u) :: run_input_callbacks rest m
    | .error e => .ranCallback (.error e) :: run_input_callbacks rest m

/-- The whole per-message closure of `Serial::serial_receive_task`
(serial/mod.rs lines 76-89; same shape in `FakeSource::run`, fake.rs
lines 168-188): run every `on_message_input` callback, then
`hub_sender.send(message)` — the publish statement is after the callback
loop and is not guarded by any callback result. -/
def serial_receive_pipeline (on_message_input : List (Protocol → Except String Unit))
    (m : Protocol) : List PipeEvent :=
  run_input_callbacks on_message_input m ++ [.published m]

/-- Control-flow events of `Serial::run` (serial/mod.rs lines 140-173). -/
inductive SerialRunEvent
  | openFailed
  | openedPort
  | spawnedTasks
  | taskExited
  deriving DecidableEq, Repr

/-- The `loop` of `Serial::run` (serial/mod.rs lines 156-172): each
iteration subscribes to the hub and races the two tasks (`spawnedTasks`)
until one of them exits (`taskExited`); the loop then repeats with the same
read/write halves. -/
def serial_run_loop_trace : Nat → List SerialRunEvent
  | 0 => []
  | n + 1 => .spawnedTasks :: .taskExited :: serial_run_loop_trace n

/-- `Serial::run` (serial/mod.rs lines 140-173) observed for `iterations`
passes of its task loop: the port is opened once, before the loop
(lines 142-155) — on failure the function returns the error; on success the
task loop runs on the split halves of that one port. -/
def serial_run_trace (openOk : Bool) (iterations : Nat) : List SerialRunEvent :=
  if openOk then .openedPort :: serial_run_loop_trace iterations
  else [.openFailed]

/-- The property the claim asserts of `Serial::run`: between any two task
(re)spawns an `openedPort` event occurs, i.e. the device is reopened before
the tasks are resumed. -/
def reopensBeforeEachRespawn (t : List SerialRunEvent) : Prop :=
  ∀ i : Fin t.length, ∀ j : Fin t.length, i < j →
    t.get i = .spawnedTasks → t.get j = .spawnedTasks →
    ∃ k : Fin t.length, i < k ∧ k < j ∧ t.get k = .openedPort

/-! ## Stats accumulators, hub snapshot and the stats actor -/

/-- Modelled from the spec: the accumulated monotonic counters per
direction (spec section 3, "Accumulator") — the defining module
`src/stats/accumulated` is not under src/.  `Default::default()` is the
all-zero record `AccumulatedStatsInner.default`. -/
structure AccumulatedStatsInner where
  messages : Nat
  bytes : Nat
  delay_sum : Nat
  last_update : Nat
  deriving DecidableEq, Repr

/-- `AccumulatedStatsInner::default()`. -/
def AccumulatedStatsInner.default : AccumulatedStatsInner :=
  { messages := 0, bytes := 0, delay_sum := 0, last_update := 0 }

/-- Componentwise sum, used by the hub aggregate (spec section 4.5: "sum
across drivers"). -/
def AccumulatedStatsInner.add (a b : AccumulatedStatsInner) : AccumulatedStatsInner :=
  { messages := a.messages + b.messages
    bytes := a.bytes + b.bytes
    delay_sum := a.delay_sum + b.delay_sum
    last_update := max a.last_update b.last_update }

/-- Modelled from the spec: the derived per-window statistics (`StatsInner`;
the defining module is not under src/, its formula is spec section 4.6).
Rates are rationals in place of `f64`. -/
structure StatsInner where
  last_message_time : Nat
  total_bytes : Nat
  bytes_per_second : Rat
  average_bytes_per_second : Rat
  total_messages : Nat
  messages_per_second : Rat
  average_messages_per_second : Rat
  delay : Rat
  jitter : Rat
  deriving DecidableEq, Repr

/-- `StatsInner::default()`. -/
def StatsInner.default : StatsInner :=
  { last_message_time := 0, total_bytes := 0, bytes_per_second := 0
    average_bytes_per_second := 0, total_messages := 0, messages_per_second := 0
    average_messages_per_second := 0, delay := 0, jitter := 0 }

/-- Modelled from the spec: `safe_div(a, b)` returns 0 when `b ≤ 0`
(spec section 4.6). -/
def safe_div (a b : Rat) : Rat := if b ≤ 0 then 0 else a / b

/-- Modelled from the spec: `StatsInner::from_accumulated(current, last,
start_time)` per the differential formula of spec section 4.6. -/
def StatsInner.from_accumulated (current last : AccumulatedStatsInner)
    (start_time : Nat) : StatsInner :=
  let time_diff : Rat := ((current.last_update : Rat) - (last.last_update : Rat)) / 1000000
  let total_time : Rat := ((current.last_update : Rat) - (start_time : Rat)) / 1000000
  let delay := safe_div (current.delay_sum : Rat) (current.messages : Rat)
  let prev_delay := safe_div (last.delay_sum : Rat) (last.messages : Rat)
  { last_message_time := current.last_update
    total_bytes := current.bytes
    bytes_per_second := safe_div ((current.bytes : Rat) - (last.bytes : Rat)) time_diff
    average_bytes_per_second := safe_div (current.bytes : Rat) total_time
    total_messages := current.messages
    messages_per_second := safe_div ((current.messages : Rat) - (last.messages : Rat)) time_diff
    average_messages_per_second := safe_div (current.messages : Rat) total_time
    delay := delay
    jitter := |delay - prev_delay| }

/-- Per-driver accumulator pair with the driver descriptor fields the actor
copies (`current_stats.name`, `current_stats.driver_type`, actor.rs
lines 336-338).  A direction that never saw traffic, or was reset, is
`none` (serial/mod.rs lines 187-192). -/
structure AccumulatedDriverStats where
  name : String
  driver_type : String
  input : Option AccumulatedStatsInner
  output : Option AccumulatedStatsInner
  deriving DecidableEq, Repr

/-- `reset_stats` of a driver (serial/mod.rs lines 187-192; the tlog writer
at writer.rs lines 117-122 is identical): both directions become `None`. -/
def AccumulatedDriverStats.reset (d : AccumulatedDriverStats) : AccumulatedDriverStats :=
  { d with input := none, output := none }

/-- `AccumulatedDriversStats`: the per-driver accumulator snapshot keyed by
driver UUID (modelled as `Nat`), as an association list. -/
abbrev AccumulatedDriversStats := List (Nat × AccumulatedDriverStats)

/-- Derived per-driver stats halves (`DriverStatsInner`). -/
structure DriverStatsInner where
  input : Option StatsInner
  output : Option StatsInner
  deriving DecidableEq, Repr

/-- Derived per-driver stats entry (`DriverStats` as built by
`update_driver_stats`, actor.rs lines 334-344). -/
structure DriverStats where
  name : String
  driver_type : String
  stats : DriverStatsInner
  deriving DecidableEq, Repr

/-- The published derived snapshot `DriversStats`, keyed by driver UUID. -/
abbrev DriversStats := List (Nat × DriverStats)

/-- Accumulated per-message tap, innermost level: message id → accumulator
(spec section 3, "Hub message accumulator"). -/
structure AccumulatedComponentStats where
  messages_stats : List (Nat × AccumulatedStatsInner)
  deriving DecidableEq, Repr

/-- Component id → per-message accumulators. -/
structure AccumulatedSystemStats where
  components_messages_stats : List (Nat × AccumulatedComponentStats)
  deriving DecidableEq, Repr

/-- System id → component map: the hub-side per-message accumulator tap. -/
structure AccumulatedHubMessagesStats where
  systems_messages_stats : List (Nat × AccumulatedSystemStats)
  deriving DecidableEq, Repr

/-- Derived per-message stats, innermost level. -/
structure ComponentMessagesStats where
  messages_stats : List (Nat × StatsInner)
  deriving DecidableEq, Repr

/-- Derived per-message stats, component level. -/
structure SystemMessagesStats where
  components_messages_stats : List (Nat × ComponentMessagesStats)
  deriving DecidableEq, Repr

/-- The published derived per-message snapshot `HubMessagesStats`. -/
structure HubMessagesStats where
  systems_messages_stats : List (Nat × SystemMessagesStats)
  deriving DecidableEq, Repr

/-- Modelled from the spec: the hub state the stats actor reads
(spec section 4.5) — the hub module is not under src/.  It holds the
per-driver accumulators behind `drivers_stats()` and the hub-side
per-message tap behind `hub_messages_stats()`; `hub_stats()` is the sum
across drivers. -/
structure HubState where
  drivers : AccumulatedDriversStats
  messages : AccumulatedHubMessagesStats
  deriving DecidableEq, Repr

/-- Modelled from the spec: `Hub::hub_stats()` — sum across every driver's
directions (spec section 4.5). -/
def HubState.hub_stats (h : HubState) : AccumulatedStatsInner :=
  h.drivers.foldl
    (fun acc kv =>
      (acc.add (kv.2.input.getD AccumulatedStatsInner.default)).add
        (kv.2.output.getD AccumulatedStatsInner.default))
    AccumulatedStatsInner.default

/-- Modelled from the spec: `Hub::reset_all_stats()` — fan-out
`reset_stats` to every driver, then reset the hub-side taps
(spec section 4.5). -/
def HubState.reset_all_stats (h : HubState) : HubState :=
  { drivers := h.drivers.map (fun kv => (kv.1, kv.2.reset))
    messages := { systems_messages_stats := [] } }

/-- The stats actor's state (`StatsActor`, actor.rs lines 21-31), with the
lock wrappers dropped and the hub handle inlined as the hub state. -/
structure StatsActorState where
  hub : HubState
  start_time : Nat
  update_period : Nat
  last_accumulated_drivers_stats : AccumulatedDriversStats
  drivers_stats : DriversStats
  last_accumulated_hub_stats : AccumulatedStatsInner
  hub_stats : StatsInner
  last_accumulated_hub_messages_stats : AccumulatedHubMessagesStats
  hub_messages_stats : HubMessagesStats
  deriving DecidableEq, Repr

/-- `StatsActor::set_period` (actor.rs lines 175-179). -/
def StatsActor.set_period (period : Nat) (s : StatsActorState) :
    Except String Unit × StatsActorState :=
  (.ok (), { s with update_period := period })

/-- `StatsActor::drivers_stats` (actor.rs lines 168-172): clone of the
published snapshot, always `Ok`. -/
def StatsActor.drivers_stats_snapshot (s : StatsActorState) :
    Except String DriversStats × StatsActorState :=
  (.ok s.drivers_stats, s)

/-- `StatsActor::reset` (actor.rs lines 181-204).  The result of the
`self.hub.reset_all_stats()` call is the explicit `hub_result` argument:
on `Err` the error is only logged (lines 188-190) and the hub is left
unchanged, while every local clearing step still runs; `start_time` is set
to the current time (line 191); the `last` accumulators and the published
derived snapshots of all three domains are cleared (lines 193-201); the
function returns `Ok(())` (line 203). -/
def StatsActor.reset (now : Nat) (hub_result : Except String Unit)
    (s : StatsActorState) : Except String Unit × StatsActorState :=
  let hub' := match hub_result with
    | .ok _ => s.hub.reset_all_stats
    | .error _ => s.hub
  (.ok (),
    { s with
        hub := hub'
        start_time := now
        last_accumulated_drivers_stats := []
        drivers_stats := []
        hub_messages_stats := { systems_messages_stats := [] }
        last_accumulated_hub_messages_stats := { systems_messages_stats := [] }
        hub_stats := StatsInner.default
        last_accumulated_hub_stats := AccumulatedStatsInner.default })

/-- `update_hub_stats` (actor.rs lines 258-274): derive from the hub
aggregate and the stored `last`, publish, and store the current
accumulator as the new `last`. -/
def update_hub_stats (s : StatsActorState) : StatsActorState :=
  let current := s.hub.hub_stats
  { s with
      hub_stats := StatsInner.from_accumulated current s.last_accumulated_hub_stats s.start_time
      last_accumulated_hub_stats := current }

/-- Insert-or-modify on an association list, the embedding of the
`merged_stats.entry(*uuid).and_modify(...).or_insert(...)` step of
`update_driver_stats` (actor.rs lines 292-297). -/
def assocModifyOrInsert {β : Type} (k : Nat) (f : β → β) (v : β) :
    List (Nat × β) → List (Nat × β)
  | [] => [(k, v)]
  | (k', v') :: rest =>
    if k = k' then (k', f v') :: rest else (k', v') :: assocModifyOrInsert k f v rest

/-- The body of the second `for` loop of `update_driver_stats` (actor.rs
lines 304-345): a merged `(last?, current?)` pair yields a derived
`DriverStats` entry when the current half is present — directions that are
`None` stay `None`, a missing `last` half defaults to zero — and nothing
otherwise. -/
def deriveDriverEntry (start_time : Nat)
    (kv : Nat × (Option AccumulatedDriverStats × Option AccumulatedDriverStats)) :
    Option (Nat × DriverStats) :=
  match kv.2.2 with
  | none => none
  | some current_stats =>
    let new_input := match current_stats.input with
      | none => none
      | some cur_in =>
        let last_in := (kv.2.1.bind (fun l => l.input)).getD AccumulatedStatsInner.default
        some (StatsInner.from_accumulated cur_in last_in start_time)
    let new_output := match current_stats.output with
      | none => none
      | some cur_out =>
        let last_out := (kv.2.1.bind (fun l => l.output)).getD AccumulatedStatsInner.default
        some (StatsInner.from_accumulated cur_out last_out start_time)
    some (kv.1,
      { name := current_stats.name
        driver_type := current_stats.driver_type
        stats := { input := new_input, output := new_output } })

/-- `update_driver_stats` (actor.rs lines 276-352): merge the stored `last`
map with the current hub snapshot by UUID, derive a `DriverStats` entry for
every driver present in the current snapshot via `deriveDriverEntry`,
publish the new map and store the current snapshot as the new `last`. -/
def update_driver_stats (s : StatsActorState) : StatsActorState :=
  let current_map := s.hub.drivers
  let merged0 : List (Nat × (Option AccumulatedDriverStats × Option AccumulatedDriverStats)) :=
    s.last_accumulated_drivers_stats.map (fun kv => (kv.1, (some kv.2, none)))
  let merged := current_map.foldl
    (fun acc kv => assocModifyOrInsert kv.1 (fun e => (e.1, some kv.2)) (none, some kv.2) acc)
    merged0
  let new_map : DriversStats := merged.foldl
    (fun acc kv =>
      match deriveDriverEntry s.start_time kv with
      | none => acc
      | some entry => acc ++ [entry])
    []
  { s with drivers_stats := new_map, last_accumulated_drivers_stats := current_map }

/-- The `last`-lookup of `update_hub_messages_stats` (actor.rs
lines 226-231): the stored accumulator of a (system, component, message)
triple, defaulting to zero. -/
def lookupMessageLast (last : AccumulatedHubMessagesStats) (sid cid mid : Nat) :
    AccumulatedStatsInner :=
  ((((last.systems_messages_stats.lookup sid).bind
      (fun sysm => sysm.components_messages_stats.lookup cid)).bind
      (fun compm => compm.messages_stats.lookup mid)).getD
    AccumulatedStatsInner.default)

/-- `update_hub_messages_stats` (actor.rs lines 207-256): walk the current
hub-side tap, derive a `StatsInner` for every (system, component, message)
triple against the stored `last` (missing `last` defaults to zero), publish
the nested snapshot and store the current tap as the new `last`. -/
def update_hub_messages_stats (s : StatsActorState) : StatsActorState :=
  let current := s.hub.messages
  let new_stats : HubMessagesStats :=
    { systems_messages_stats := current.systems_messages_stats.map (fun skv =>
        (skv.1,
          { components_messages_stats := skv.2.components_messages_stats.map (fun ckv =>
              (ckv.1,
                { messages_stats := ckv.2.messages_stats.map (fun mkv =>
                    (mkv.1, StatsInner.from_accumulated mkv.2
                      (lookupMessageLast s.last_accumulated_hub_messages_stats skv.1 ckv.1 mkv.1)
                      s.start_time)) })) })) }
  { s with
      hub_messages_stats := new_stats
      last_accumulated_hub_messages_stats := current }

/-! ## The stats command protocol and the actor command loop -/

/-- `StatsCommand` (src/src/stats/protocol.rs lines 6-17): the command
enumeration sent to the stats actor.  Each variant carries a one-shot
reply channel, modelled by its identifier. -/
inductive StatsCommand
  | setPeriod (period : Nat) (response : Nat)
  | reset (response : Nat)
  | getDriversStats (response : Nat)
  deriving DecidableEq, Repr

/-- The reply channel carried by a command. -/
def StatsCommand.responseChannel : StatsCommand → Nat
  | .setPeriod _ ch => ch
  | .reset ch => ch
  | .getDriversStats ch => ch

/-- The five command kinds the spec's control-surface contract lists (spec
section 6): written from the spec's words, to be compared against the
`StatsCommand` enumeration the source declares. -/
inductive SpecStatsCommandKind
  | setPeriod
  | reset
  | getDriversStats
  | getHubStats
  | getHubMessagesStats
  deriving DecidableEq, Repr

/-- The spec kind of a declared command variant. -/
def StatsCommand.kind : StatsCommand → SpecStatsCommandKind
  | .setPeriod _ _ => .setPeriod
  | .reset _ => .reset
  | .getDriversStats _ => .getDriversStats

/-- A reply sent on a one-shot channel: a `Result<()>` or a
`Result<DriversStats>`. -/
inductive StatsReply
  | unitResult (r : Except String Unit)
  | driversStats (r : DriversStats)
  deriving Repr

/-- One iteration of the `StatsActor::start` command loop (actor.rs
lines 97-120) for the variants the declared protocol contains: run the
matching handler and send exactly one reply on the command's channel
(`let _ = response.send(result)`).  Returns the new state and the list of
`(channel, reply)` sends performed. -/
def StatsActor.handle_command (now : Nat) (hub_result : Except String Unit)
    (s : StatsActorState) : StatsCommand → StatsActorState × List (Nat × StatsReply)
  | .setPeriod period ch =>
    let r := StatsActor.set_period period s
    (r.2, [(ch, .unitResult r.1)])
  | .reset ch =>
    let r := StatsActor.reset now hub_result s
    (r.2, [(ch, .unitResult r.1)])
  | .getDriversStats ch =>
    let r := StatsActor.drivers_stats_snapshot s
    (r.2, [(ch, match r.1 with
                | .ok v => .driversStats v
                | .error e => .unitResult (.error e))])

/-! ## Concrete example data -/

/-- All-zero CRC_EXTRA table, a concrete instance of the per-message
CRC_EXTRA function for example frames. -/
def zeroExtra : Nat → Nat := fun _ => 0

/-- A concrete 12-byte v2 frame: empty payload, no signature, msgid 0,
system 1, component 2, sequence 0. -/
def exampleFrame1 : V2FrameData :=
  { incompat := 0, compat := 0, seq := 0, sysid := 1, compid := 2
    msgid0 := 0, msgid1 := 0, msgid2 := 0, payload := [], sig := [] }

/-- The same frame with sequence 1. -/
def exampleFrame2 : V2FrameData := { exampleFrame1 with seq := 1 }

/-- `exampleFrame1` serialised with its correct CRC. -/
def exampleBytes1 : List Nat := exampleFrame1.encode (exampleFrame1.goodCrc zeroExtra)

/-- `exampleFrame2` serialised with its correct CRC. -/
def exampleBytes2 : List Nat := exampleFrame2.encode (exampleFrame2.goodCrc zeroExtra)

/-! ## Frame-reader theorems -/

/-- Parsing a serialised v2 frame at the head of a buffer: the whole frame
is consumed; the result is `ok` exactly when the stored CRC equals the
computed one, and `invalidCRC` carrying the identical raw v2 bytes
otherwise. -/
theorem parseV2_encode_append (ce : Nat → Nat) (f : V2FrameData) (crc : Nat)
    (rest : List Nat) (hs : f.sig.length = f.sigLen) :
    parseV2 ce (f.encode crc ++ rest) =
      (if crc % 256 + 256 * (crc / 256) = f.goodCrc ce then
        ParseResult.ok (f.encode crc)
       else
        ParseResult.invalidCRC (crc % 256 + 256 * (crc / 256)) (f.goodCrc ce)
          (MAVLinkMessageRaw.v2 (f.encode crc)),
       12 + f.payload.length + f.sigLen) := by
  have hsig : (if f.incompat % 2 = 1 then 13 else 0) = f.sigLen := rfl
  simp only [parseV2, V2FrameData.encode, V2FrameData.crcData, List.cons_append,
    List.append_assoc, List.dropWhile_cons, List.takeWhile_cons, ne_eq, decide_not]
  norm_num
  rw [hsig]
  rw [if_neg (by omega :
      ¬ f.payload.length + (f.sig.length + rest.length + 1 + 1) <
        f.payload.length + 2 + f.sigLen)]
  have htake :
      (f.payload ++ crc % 256 :: crc / 256 :: (f.sig ++ rest)).take
          (f.payload.length + 2 + f.sigLen) =
        f.payload ++ crc % 256 :: crc / 256 :: f.sig := by
    have hsplit :
        f.payload ++ crc % 256 :: crc / 256 :: (f.sig ++ rest) =
          (f.payload ++ crc % 256 :: crc / 256 :: f.sig) ++ rest := by
      simp
    rw [hsplit]
    exact List.take_left' (by simp; omega)
  rw [htake]
  simp only [V2FrameData.goodCrc, V2FrameData.crcData, V2FrameData.msgid,
    V2FrameData.encode, List.cons_append, List.append_assoc]
  split <;> simp_all

/-- The only shapes a `parseV2` result can take: an I/O error, a success
whose frame starts with the v2 STX byte 0xFD, or an `InvalidCRC` error that
carries the `V2` raw-message constructor, again starting with 0xFD. -/
theorem parseV2_shape (ce : Nat → Nat) (buf : List Nat) :
    (∃ n, parseV2 ce buf = (.ioError, n)) ∨
    (∃ fr n, parseV2 ce buf = (.ok fr, n) ∧ fr.headD 0 = 253) ∨
    (∃ c₁ c₂ fr n,
      parseV2 ce buf = (.invalidCRC c₁ c₂ (.v2 fr), n) ∧ fr.headD 0 = 253) := by
  simp only [parseV2]
  split
  · split <;> split <;>
      first
        | exact Or.inl ⟨_, rfl⟩
        | (split <;>
            first
              | exact Or.inr (Or.inl ⟨_, _, rfl, rfl⟩)
              | exact Or.inr (Or.inr ⟨_, _, _, _, rfl, rfl⟩))
  · exact Or.inl ⟨_, rfl⟩

/-- Whenever the read loop breaks with a message, that message starts with
the v2 STX byte 0xFD. -/
theorem read_messages_loop_some_head (d : Bool) (ce : Nat → Nat) :
    ∀ (fuel : Nat) (rem : List Nat) (consumed : Nat) (fr : List Nat) (n : Nat),
      read_messages_loop d ce fuel rem consumed = (some fr, n) → fr.headD 0 = 253 := by
  intro fuel
  cases fuel with
  | zero =>
    intro rem c fr n h
    simp [read_messages_loop] at h
  | succ k =>
    intro rem c fr n h
    rw [read_messages_loop] at h
    rcases parseV2_shape ce rem with ⟨n₀, h₀⟩ | ⟨fr₀, n₀, h₀, hd₀⟩ |
      ⟨c₁, c₂, fr₀, n₀, h₀, hd₀⟩ <;> rw [h₀] at h
    · simp [read_loop_step] at h
    · simp only [read_loop_step] at h
      rw [Prod.mk.injEq] at h
      obtain ⟨h1, -⟩ := h
      rw [Option.some.injEq] at h1
      rw [← h1]
      exact hd₀
    · cases d with
      | true => simp [read_loop_step] at h
      | false =>
        simp only [read_loop_step, Bool.false_eq_true, if_false] at h
        rw [Prod.mk.injEq] at h
        obtain ⟨h1, -⟩ := h
        rw [Option.some.injEq] at h1
        rw [← h1]
        exact hd₀

/-- **C1**: the claim says a single `read_all_messages` call on a buffer of
`k` complete well-formed frames invokes the callback `k` times and leaves
only the incomplete tail.  Evaluating the embedded code at a buffer holding
two complete well-formed frames (`k = 2`, `p = 0`): the `loop` at
protocol.rs lines 51-83 breaks at the first successfully parsed message, so
the callback runs exactly once — for the first frame — and the whole second
frame (12 bytes, not `p = 0` bytes) is still in the buffer on return. -/
theorem read_all_messages_two_frames_one_callback :
    (read_all_messages "tcpclient" 7 (exampleBytes1 ++ exampleBytes2) true zeroExtra).delivered =
      [Protocol.new 7 "tcpclient" exampleBytes1] ∧
    (read_all_messages "tcpclient" 7 (exampleBytes1 ++ exampleBytes2) true zeroExtra).buffer =
      exampleBytes2 := by
  constructor <;> decide

/-- **C3**: on a buffer whose next frame is a v2 frame with a broken CRC
(stored `crc` differs from the computed one), `read_all_messages` under
`discard_invalid_checksum = true` invokes the callback for no frame, and
under `false` invokes it exactly once with a frame whose raw bytes are
byte-identical to that frame's input bytes. -/
theorem read_all_messages_crc_policy (ce : Nat → Nat) (f : V2FrameData) (crc : Nat)
    (rest : List Nat) (origin : String) (now : Nat)
    (hWF : f.WF) (hbad : crc ≠ f.goodCrc ce) :
    (read_all_messages origin now (f.encode crc ++ rest) true ce).delivered = [] ∧
    (read_all_messages origin now (f.encode crc ++ rest) false ce).delivered =
      [Protocol.new now origin (f.encode crc)] := by
  obtain ⟨-, hs⟩ := hWF
  have hparse := parseV2_encode_append ce f crc rest hs
  rw [Nat.mod_add_div] at hparse
  rw [if_neg hbad] at hparse
  constructor <;>
    simp [read_all_messages, read_messages_loop, hparse, read_loop_step]

/-- Witness for `read_all_messages_crc_policy` at a concrete bad-CRC frame:
`exampleFrame1` stored with CRC 0 (its correct CRC is not 0). -/
theorem read_all_messages_crc_policy_witness :
    (read_all_messages "udp" 1 (exampleFrame1.encode 0 ++ [9]) true zeroExtra).delivered = [] ∧
    (read_all_messages "udp" 1 (exampleFrame1.encode 0 ++ [9]) false zeroExtra).delivered =
      [Protocol.new 1 "udp" (exampleFrame1.encode 0)] :=
  read_all_messages_crc_policy zeroExtra exampleFrame1 0 [9] "udp" 1
    (by refine ⟨?_, ?_⟩ <;> decide) (by decide)

/-- **C9**: under the permissive CRC policy
(`discard_invalid_checksum = false`) an `InvalidCRC` parse error carrying a
MAVLink v1 raw message makes the loop `continue` — the callback is never
invoked with that frame (the `let ... else continue` at protocol.rs
lines 69-73) — and every frame `read_all_messages` ever delivers starts
with the v2 STX byte 0xFD, i.e. only v2 raw frames are delivered. -/
theorem v1_invalid_crc_never_delivered :
    (∀ (c₁ c₂ : Nat) (b : List Nat),
      read_loop_step false (.invalidCRC c₁ c₂ (.v1 b)) = .continueLoop) ∧
    (∀ (origin : String) (now : Nat) (buf : List Nat) (d : Bool) (ce : Nat → Nat)
      (p : Protocol), p ∈ (read_all_messages origin now buf d ce).delivered →
        p.message.headD 0 = 253) := by
  constructor
  · intro c₁ c₂ b
    rfl
  · intro o now buf d ce p hp
    simp only [read_all_messages] at hp
    rcases hloop : read_messages_loop d ce (buf.length + 1) buf 0 with ⟨r, c⟩
    rw [hloop] at hp
    cases r with
    | none => simp at hp
    | some fr =>
      simp at hp
      rw [hp]
      exact read_messages_loop_some_head d ce _ _ _ _ _ hloop

/-- Witness for `v1_invalid_crc_never_delivered` at a concrete delivery:
the good frame `exampleBytes1` is delivered and indeed starts with 0xFD. -/
theorem v1_invalid_crc_never_delivered_witness :
    (Protocol.new 3 "serial" exampleBytes1).message.headD 0 = 253 :=
  v1_invalid_crc_never_delivered.2 "serial" 3 exampleBytes1 false zeroExtra
    (Protocol.new 3 "serial" exampleBytes1) (by decide)

/-! ## Driver-task theorems -/

/-- **C2** (amended): the TCP send task never writes a frame whose `origin`
equals its `remote_addr` — the loopback check at tcp/mod.rs lines 66-68
skips it. -/
theorem tcp_send_task_loopback_suppression (remote_addr : String) (m : Protocol)
    (h : m.origin = remote_addr) :
    tcp_send_step remote_addr (.message m) = .skippedLoopback := by
  simp [tcp_send_step, h]

/-- Witness for `tcp_send_task_loopback_suppression` at a concrete frame
whose origin is the task's own remote address. -/
theorem tcp_send_task_loopback_suppression_witness :
    tcp_send_step "10.0.0.1:5760"
      (.message (Protocol.new 0 "10.0.0.1:5760" exampleBytes1)) = .skippedLoopback :=
  tcp_send_task_loopback_suppression "10.0.0.1:5760"
    (Protocol.new 0 "10.0.0.1:5760" exampleBytes1) rfl

/-- **C2** (counterexample): the serial send task performs no origin check
(serial/mod.rs lines 114-133): a frame tagged with the serial driver's own
origin "serial" — the literal its receive task passes to
`read_all_messages` at serial/mod.rs line 76 — is written to the serial
port anyway. -/
theorem serial_send_task_writes_own_origin_frame :
    (Protocol.new 0 "serial" exampleBytes1).origin = "serial" ∧
    serial_send_step (.message (Protocol.new 0 "serial" exampleBytes1)) =
      .wrote exampleBytes1 :=
  ⟨rfl, rfl⟩

/-- **C4** (amended): on the input pipeline every `on_message_input`
callback runs, in order, before the publish, and the frame is then
published to the hub unconditionally — a failing callback is only logged
(the `continue` at serial/mod.rs line 83 moves to the next callback) and
does not prevent publication. -/
theorem input_callbacks_run_before_unconditional_publish
    (callbacks : List (Protocol → Except String Unit)) (m : Protocol) :
    serial_receive_pipeline callbacks m =
      callbacks.map (fun c => .ranCallback (c m)) ++ [.published m] := by
  unfold serial_receive_pipeline
  congr 1
  induction callbacks with
  | nil => rfl
  | cons c rest ih =>
    cases hc : c m <;> simp [run_input_callbacks, hc, ih]

/-- **C4** (counterexample): with a single always-failing input callback
the frame is still published to the hub, refuting "if any input callback
returns an error the frame is not published". -/
theorem failing_input_callback_frame_still_published :
    PipeEvent.published (Protocol.new 0 "serial" exampleBytes1) ∈
      serial_receive_pipeline [fun _ => Except.error "rejected"]
        (Protocol.new 0 "serial" exampleBytes1) := by
  simp [serial_receive_pipeline, run_input_callbacks]

/-- **C5** (amended): only the TCP send task treats the broadcast errors as
the claim states (warn-and-continue on `Lagged`, exit on `Closed`); the
FakeSink loop and the tlog writer loop exit on any receive error,
`Lagged` included, and the serial send task logs and continues on both
errors, `Closed` included. -/
theorem subscriber_loop_error_handling (n : Nat) (remote_addr : String) (now : Nat) :
    (tcp_send_step remote_addr (.lagged n) = .warnContinue n ∧
      tcp_send_step remote_addr .closed = .exited) ∧
    (fake_sink_step (.lagged n) = .exited ∧ fake_sink_step .closed = .exited) ∧
    (serial_send_step (.lagged n) = .errorLogContinue ∧
      serial_send_step .closed = .errorLogContinue) ∧
    (tlog_writer_step now (.lagged n) = .exited ∧ tlog_writer_step now .closed = .exited) :=
  ⟨⟨rfl, rfl⟩, ⟨rfl, rfl⟩, ⟨rfl, rfl⟩, ⟨rfl, rfl⟩⟩

/-- **C5** (counterexample): the FakeSink subscriber loop
(`while let Ok(message) = hub_receiver.recv().await`, fake.rs line 53)
exits on `Lagged`, refuting "receiving a Lagged(n) error … the loop
continues" for every subscriber loop. -/
theorem fake_sink_exits_on_lagged : fake_sink_step (.lagged 5) = .exited := rfl

/-- Helper: the task loop of `Serial::run` never emits an `openedPort`
event and spawns the tasks once per iteration. -/
theorem serial_run_loop_trace_counts (n : Nat) :
    (serial_run_loop_trace n).count SerialRunEvent.openedPort = 0 ∧
    (serial_run_loop_trace n).count SerialRunEvent.spawnedTasks = n := by
  induction n with
  | zero => exact ⟨rfl, rfl⟩
  | succ k ih =>
    obtain ⟨h1, h2⟩ := ih
    constructor <;> simp [serial_run_loop_trace, List.count_cons, h1, h2]

/-- **C8** (amended): `Serial::run` opens the serial device exactly once,
before its task loop (serial/mod.rs lines 142-155); after a task exits the
loop respawns both tasks on the same already-open port halves, with a fresh
hub subscription but without reopening the device. -/
theorem serial_run_opens_device_once (n : Nat) :
    (serial_run_trace true n).count SerialRunEvent.openedPort = 1 ∧
    (serial_run_trace true n).count SerialRunEvent.spawnedTasks = n ∧
    (serial_run_trace true n).headD .openFailed = .openedPort := by
  obtain ⟨h1, h2⟩ := serial_run_loop_trace_counts n
  refine ⟨?_, ?_, rfl⟩ <;> simp [serial_run_trace, List.count_cons, h1, h2]

/-- **C8** (counterexample): in a run with two task-loop iterations the
tasks are respawned after the first exit with no `openedPort` event in
between, refuting "the run loop re-acquires (reopens) the serial device
before resuming the two tasks". -/
theorem serial_run_no_reopen_between_respawns :
    ¬ reopensBeforeEachRespawn (serial_run_trace true 2) := by
  unfold reopensBeforeEachRespawn
  decide

/-! ## Stats-actor theorems -/

/-- Helper: summing over a drivers map whose every entry has been reset
adds nothing to the accumulator. -/
theorem hub_stats_foldl_none :
    ∀ (l : AccumulatedDriversStats) (acc : AccumulatedStatsInner),
      (∀ kv ∈ l, kv.2.input = none ∧ kv.2.output = none) →
      l.foldl
        (fun acc kv =>
          (acc.add (kv.2.input.getD AccumulatedStatsInner.default)).add
            (kv.2.output.getD AccumulatedStatsInner.default)) acc = acc := by
  intro l
  induction l with
  | nil => intro acc _; rfl
  | cons kv rest ih =>
    intro acc hq
    obtain ⟨hi, ho⟩ := hq kv (List.mem_cons_self _ _)
    simp only [List.foldl_cons, hi, ho, Option.getD_none]
    have hstep :
        (acc.add AccumulatedStatsInner.default).add AccumulatedStatsInner.default = acc := by
      simp [AccumulatedStatsInner.add, AccumulatedStatsInner.default, Nat.max_zero]
    rw [hstep]
    exact ih acc (fun x hx => hq x (List.mem_cons_of_mem _ hx))

/-- Helper: after `reset_all_stats` every driver entry has both direction
accumulators set to `None`. -/
theorem reset_all_stats_drivers_none (h : HubState) :
    ∀ kv ∈ h.reset_all_stats.drivers, kv.2.input = none ∧ kv.2.output = none := by
  intro kv hkv
  simp only [HubState.reset_all_stats, List.mem_map] at hkv
  obtain ⟨a, -, rfl⟩ := hkv
  exact ⟨rfl, rfl⟩

/-- Helper: after `reset_all_stats` the hub aggregate is zero. -/
theorem hub_stats_after_reset (h : HubState) :
    h.reset_all_stats.hub_stats = AccumulatedStatsInner.default := by
  unfold HubState.hub_stats
  exact hub_stats_foldl_none _ _ (reset_all_stats_drivers_none h)

/-- Helper: membership in `assocModifyOrInsert k f v l` comes from an
untouched member of `l`, an `f`-modified member of `l`, or the new entry
`(k, v)`. -/
theorem assocModifyOrInsert_mem {β : Type} (k : Nat) (f : β → β) (v : β) :
    ∀ (l : List (Nat × β)) (e : Nat × β), e ∈ assocModifyOrInsert k f v l →
      e ∈ l ∨ (∃ e' ∈ l, e = (e'.1, f e'.2)) ∨ e = (k, v) := by
  intro l
  induction l with
  | nil =>
    intro e he
    simp only [assocModifyOrInsert, List.mem_singleton] at he
    exact Or.inr (Or.inr he)
  | cons hd tl ih =>
    obtain ⟨k', v'⟩ := hd
    intro e he
    simp only [assocModifyOrInsert] at he
    by_cases hk : k = k'
    · rw [if_pos hk] at he
      rcases List.mem_cons.mp he with h | h
      · exact Or.inr (Or.inl ⟨(k', v'), List.mem_cons_self _ _, h⟩)
      · exact Or.inl (List.mem_cons_of_mem _ h)
    · rw [if_neg hk] at he
      rcases List.mem_cons.mp he with h | h
      · exact Or.inl (by rw [h]; exact List.mem_cons_self _ _)
      · rcases ih e h with h' | ⟨e', he', hmod⟩ | h'
        · exact Or.inl (List.mem_cons_of_mem _ h')
        · exact Or.inr (Or.inl ⟨e', List.mem_cons_of_mem _ he', hmod⟩)
        · exact Or.inr (Or.inr h')

/-- Helper: the merge fold of `update_driver_stats` preserves a property
`P` of every merged entry's `current` half, provided every current driver
entry satisfies it. -/
theorem merged_entries_current (P : AccumulatedDriverStats → Prop) :
    ∀ (current : AccumulatedDriversStats)
      (acc : List (Nat × (Option AccumulatedDriverStats × Option AccumulatedDriverStats))),
      (∀ kv ∈ current, P kv.2) →
      (∀ e ∈ acc, ∀ cur, e.2.2 = some cur → P cur) →
      ∀ e ∈ current.foldl
          (fun a kv => assocModifyOrInsert kv.1 (fun x => (x.1, some kv.2)) (none, some kv.2) a)
          acc,
        ∀ cur, e.2.2 = some cur → P cur := by
  intro current
  induction current with
  | nil =>
    intro acc _ hacc e he
    exact hacc e he
  | cons kv rest ih =>
    intro acc hcur hacc e he
    simp only [List.foldl_cons] at he
    refine ih _ (fun x hx => hcur x (List.mem_cons_of_mem _ hx)) ?_ e he
    intro e' he' cur hc
    rcases assocModifyOrInsert_mem _ _ _ _ e' he' with h | ⟨e'', he'', hmod⟩ | hnew
    · exact hacc e' h cur hc
    · rw [hmod] at hc
      simp only at hc
      rw [Option.some.injEq] at hc
      rw [← hc]
      exact hcur kv (List.mem_cons_self _ _)
    · rw [hnew] at hc
      simp only at hc
      rw [Option.some.injEq] at hc
      rw [← hc]
      exact hcur kv (List.mem_cons_self _ _)

/-- Helper: when a merged entry's current half has both directions `None`,
its derived entry has both derived directions `None`. -/
theorem deriveDriverEntry_none (start : Nat)
    (e : Nat × (Option AccumulatedDriverStats × Option AccumulatedDriverStats))
    (entry : Nat × DriverStats)
    (hm : ∀ cur, e.2.2 = some cur → cur.input = none ∧ cur.output = none)
    (hde : deriveDriverEntry start e = some entry) :
    entry.2.stats = { input := none, output := none } := by
  rcases he2 : e.2.2 with _ | cur
  · simp only [deriveDriverEntry, he2] at hde
    exact Option.noConfusion hde
  · obtain ⟨hi, ho⟩ := hm cur he2
    simp only [deriveDriverEntry, he2, hi, ho] at hde
    rw [Option.some.injEq] at hde
    rw [← hde]

/-- Helper: every entry of the derived-entries fold of
`update_driver_stats` has both directions `None` when every merged entry's
current half does. -/
theorem derived_map_entries_none (start : Nat) :
    ∀ (merged : List (Nat × (Option AccumulatedDriverStats × Option AccumulatedDriverStats)))
      (acc : DriversStats),
      (∀ e ∈ merged, ∀ cur, e.2.2 = some cur → cur.input = none ∧ cur.output = none) →
      (∀ kv ∈ acc, kv.2.stats = { input := none, output := none }) →
      ∀ kv ∈ merged.foldl
          (fun acc kv =>
            match deriveDriverEntry start kv with
            | none => acc
            | some entry => acc ++ [entry])
          acc,
        kv.2.stats = { input := none, output := none } := by
  intro merged
  induction merged with
  | nil =>
    intro acc _ hacc kv hkv
    exact hacc kv hkv
  | cons e rest ih =>
    intro acc hm hacc kv hkv
    simp only [List.foldl_cons] at hkv
    refine ih _ (fun x hx => hm x (List.mem_cons_of_mem _ hx)) ?_ kv hkv
    intro kv' hkv'
    rcases hde : deriveDriverEntry start e with _ | entry
    · rw [hde] at hkv'
      exact hacc kv' hkv'
    · rw [hde] at hkv'
      rcases List.mem_append.mp hkv' with h | h
      · exact hacc kv' h
      · rw [List.mem_singleton] at h
        rw [h]
        exact deriveDriverEntry_none start e entry (hm e (List.mem_cons_self _ _)) hde

/-- **C6**: the `Reset` handler clears every `last` accumulated sample
(drivers, hub, hub messages) and every published derived snapshot, sets
`start_time` to the current time and invokes the hub's fan-out reset; as a
consequence, at the next sample of each of the three update loops every
published `total_messages` is zero (driver directions are all `None`, the
hub aggregate derives from a zero accumulator, and the message snapshot is
empty). -/
theorem stats_reset_clears_and_next_sample_zero (s : StatsActorState) (now : Nat) :
    (StatsActor.reset now (.ok ()) s).1 = .ok () ∧
    ((StatsActor.reset now (.ok ()) s).2.start_time = now ∧
      (StatsActor.reset now (.ok ()) s).2.hub = s.hub.reset_all_stats) ∧
    ((StatsActor.reset now (.ok ()) s).2.last_accumulated_drivers_stats = [] ∧
      (StatsActor.reset now (.ok ()) s).2.drivers_stats = [] ∧
      (StatsActor.reset now (.ok ()) s).2.last_accumulated_hub_stats =
        AccumulatedStatsInner.default ∧
      (StatsActor.reset now (.ok ()) s).2.hub_stats = StatsInner.default ∧
      (StatsActor.reset now (.ok ()) s).2.last_accumulated_hub_messages_stats =
        { systems_messages_stats := [] } ∧
      (StatsActor.reset now (.ok ()) s).2.hub_messages_stats =
        { systems_messages_stats := [] }) ∧
    (update_hub_stats (StatsActor.reset now (.ok ()) s).2).hub_stats.total_messages = 0 ∧
    (∀ kv ∈ (update_driver_stats (StatsActor.reset now (.ok ()) s).2).drivers_stats,
      kv.2.stats = { input := none, output := none }) ∧
    (update_hub_messages_stats (StatsActor.reset now (.ok ()) s).2).hub_messages_stats =
      { systems_messages_stats := [] } := by
  refine ⟨rfl, ⟨rfl, rfl⟩, ⟨rfl, rfl, rfl, rfl, rfl, rfl⟩, ?_, ?_, rfl⟩
  · show (StatsInner.from_accumulated (s.hub.reset_all_stats.hub_stats) _ _).total_messages = 0
    rw [hub_stats_after_reset]
    rfl
  · intro kv hkv
    simp only [update_driver_stats, StatsActor.reset, HubState.reset_all_stats,
      List.map_nil] at hkv
    have hcur : ∀ x ∈ List.map (fun kv => (kv.1, AccumulatedDriverStats.reset kv.2))
        s.hub.drivers, x.2.input = none ∧ x.2.output = none := by
      intro x hx
      simp only [List.mem_map] at hx
      obtain ⟨a, -, rfl⟩ := hx
      exact ⟨rfl, rfl⟩
    exact derived_map_entries_none now _ _
      (merged_entries_current _ _ _ hcur
        (by intro e he; exact absurd he (List.not_mem_nil e)))
      (by intro x hx; exact absurd hx (List.not_mem_nil x)) kv hkv

/-- A concrete stats-actor state: one driver with traffic in both
directions, a nonempty hub message tap, and a stale `last` sample. -/
def sampleActorState : StatsActorState :=
  { hub :=
      { drivers := [(1,
          { name := "Serial", driver_type := "serial"
            input := some { messages := 10, bytes := 120, delay_sum := 5, last_update := 999 }
            output := some { messages := 4, bytes := 48, delay_sum := 2, last_update := 998 } })]
        messages := { systems_messages_stats :=
          [(1, { components_messages_stats :=
            [(2, { messages_stats :=
              [(0, { messages := 10, bytes := 120, delay_sum := 5, last_update := 999 })] })] })] } }
    start_time := 100
    update_period := 1000000
    last_accumulated_drivers_stats := [(1,
      { name := "Serial", driver_type := "serial"
        input := some { messages := 6, bytes := 72, delay_sum := 3, last_update := 900 }
        output := none })]
    drivers_stats := []
    last_accumulated_hub_stats := { messages := 6, bytes := 72, delay_sum := 3, last_update := 900 }
    hub_stats := StatsInner.default
    last_accumulated_hub_messages_stats := { systems_messages_stats := [] }
    hub_messages_stats := { systems_messages_stats := [] } }

/-- Witness for `stats_reset_clears_and_next_sample_zero`: at the concrete
populated state, the one driver entry published at the first sample after
`Reset` has both derived directions `None`. -/
theorem stats_reset_next_sample_zero_witness :
    ((1 : Nat),
        ({ name := "Serial", driver_type := "serial",
           stats := { input := none, output := none } } : DriverStats)).2.stats =
      { input := none, output := none } :=
  (stats_reset_clears_and_next_sample_zero sampleActorState 4242).2.2.2.2.1
    (1, { name := "Serial", driver_type := "serial",
          stats := { input := none, output := none } })
    (by decide)

/-- **C7** (counterexample): the `StatsCommand` enumeration declared in
src/src/stats/protocol.rs has no `GetHubStats` and no
`GetHubMessagesStats` variant, refuting "exactly the five variants". -/
theorem stats_command_missing_hub_variants :
    (¬ ∃ c : StatsCommand, c.kind = .getHubStats) ∧
    (¬ ∃ c : StatsCommand, c.kind = .getHubMessagesStats) := by
  constructor <;> rintro ⟨c, hc⟩ <;> cases c <;> simp [StatsCommand.kind] at hc

/-- **C7** (amended): the stats command protocol contains exactly the three
variants `SetPeriod`, `Reset` and `GetDriversStats`, each carrying a
one-shot reply channel, and for every received command the actor sends
exactly one reply, on that command's reply channel. -/
theorem stats_command_three_variants_one_reply (c : StatsCommand)
    (now : Nat) (hub_result : Except String Unit) (s : StatsActorState) :
    (c.kind = .setPeriod ∨ c.kind = .reset ∨ c.kind = .getDriversStats) ∧
    ∃ reply,
      (StatsActor.handle_command now hub_result s c).2 = [(c.responseChannel, reply)] := by
  cases c with
  | setPeriod p ch => exact ⟨Or.inl rfl, ⟨.unitResult (.ok ()), rfl⟩⟩
  | reset ch => exact ⟨Or.inr (Or.inl rfl), ⟨.unitResult (.ok ()), rfl⟩⟩
  | getDriversStats ch => exact ⟨Or.inr (Or.inr rfl), ⟨.driversStats s.drivers_stats, rfl⟩⟩

/-- **C10**: `StatsActor::reset` returns `Ok(())` even when the hub's
`reset_all_stats` call fails: the failure is only logged (the hub state
stays as the failed call left it), the local `last` samples and derived
snapshots are still cleared, `start_time` is still updated, and the reply
the actor sends for the `Reset` command is `Ok`. -/
theorem stats_reset_always_ok (s : StatsActorState) (now : Nat) (err : String) (ch : Nat) :
    (StatsActor.reset now (.error err) s).1 = .ok () ∧
    ((StatsActor.reset now (.error err) s).2.hub = s.hub ∧
      (StatsActor.reset now (.error err) s).2.start_time = now ∧
      (StatsActor.reset now (.error err) s).2.last_accumulated_drivers_stats = [] ∧
      (StatsActor.reset now (.error err) s).2.drivers_stats = [] ∧
      (StatsActor.reset now (.error err) s).2.last_accumulated_hub_stats =
        AccumulatedStatsInner.default ∧
      (StatsActor.reset now (.error err) s).2.hub_stats = StatsInner.default ∧
      (StatsActor.reset now (.error err) s).2.last_accumulated_hub_messages_stats =
        { systems_messages_stats := [] } ∧
      (StatsActor.reset now (.error err) s).2.hub_messages_stats =
        { systems_messages_stats := [] }) ∧
    (StatsActor.handle_command now (.error err) s (.reset ch)).2 =
      [(ch, .unitResult (.ok ()))] :=
  ⟨rfl, ⟨rfl, rfl, rfl, rfl, rfl, rfl, rfl, rfl⟩, rfl⟩

end MavlinkServer

